import Mathlib

/-!
Verification of the data-profile backend service (FastAPI + pandas + SQLite).

The embedding models:
  * `compute_metrics` and `get_data_quality` from `modules/dataquality.py`
    (pandas DataFrames become `DataFrame` below: a list of column names and
    a list of rows of cells; float arithmetic is modelled exactly over `ℚ`);
  * the `POST /data-quality/` endpoint from `main.py`;
  * `get_keys_relations` from `modules/Keys_Relation.py` and the two routes
    `/keys_relation` and `/get_keys_relations` from `main.py`, with responses
    modelled as a JSON-like tree;
  * the column-processing pipeline of `upload_csv` from `database.py`
    (name normalisation, dropping non-schema columns, `astype(str)` on
    identifier/phone columns, datetime coercion kept abstract as a parameter).
-/

/-- A Python/pandas cell value: an integer, a string, or a missing value
(`None` / `NaN` are both modelled as `vnone`). -/
inductive PyVal where
  | vint (n : Int)
  | vstr (s : String)
  | vnone
deriving DecidableEq, Repr

/-- A pandas DataFrame: ordered column names plus rows of cells.
Rows are indexed positionally against `cols`. -/
structure DataFrame where
  cols : List String
  rows : List (List PyVal)
deriving DecidableEq, Repr

/-- `pd.isnull` on a single cell. -/
def isNull : PyVal → Bool
  | .vnone => true
  | _ => false

/-- The values of column `j` of a DataFrame (missing entries pad as null,
matching positional access into equal-length rows). -/
def colVals (df : DataFrame) (j : Nat) : List PyVal :=
  df.rows.map (fun r => r.getD j PyVal.vnone)

/-- `df[col].nunique()`: the number of distinct non-null values in column `j`. -/
def nunique (df : DataFrame) (j : Nat) : Nat :=
  (((colVals df j).filter (fun v => !isNull v)).dedup).length

/-- `df[col].isnull().sum()`: the number of null cells in column `j`. -/
def colMissing (df : DataFrame) (j : Nat) : Nat :=
  ((colVals df j).filter isNull).length

/-- `data.isnull().sum().sum()`: total null cells over the whole table. -/
def totalMissing (df : DataFrame) : Nat :=
  (((List.range df.cols.length).map (colMissing df))).sum

/-- `data.nunique().sum()`: the sum over columns of distinct-value counts. -/
def totalUnique (df : DataFrame) : Nat :=
  (((List.range df.cols.length).map (nunique df))).sum

/-- `data.duplicated().sum()`: rows that are exact duplicates of an earlier
row, i.e. total row count minus the number of distinct rows. -/
def dupRows (df : DataFrame) : Nat :=
  df.rows.length - df.rows.dedup.length

/-- Per-column block of the metrics dictionary built by `compute_metrics`. -/
structure ColumnMetrics where
  missing_values : Nat
  null_values_percentage : ℚ
  completeness_percentage : ℚ
  uniqueness_percentage : ℚ
deriving DecidableEq, Repr

/-- The metrics dictionary returned by `compute_metrics`.  The `error` key is
present (`some`) only in the empty-table branch; `columns` keeps the column
order of the DataFrame. -/
structure Metrics where
  table_name : String
  error : Option String
  total_rows : Nat
  missing_values : Nat
  duplicate_rows : Nat
  null_values_percentage : ℚ
  completeness_percentage : ℚ
  uniqueness_percentage : ℚ
  columns : List (String × ColumnMetrics)
deriving DecidableEq, Repr

/-- `compute_metrics(data, table_name)` from `modules/dataquality.py`.
Division is over `ℚ` (exact model of the Python float arithmetic). -/
def compute_metrics (data : DataFrame) (table_name : String) : Metrics :=
  let total_rows := data.rows.length
  let total_columns := data.cols.length
  let total_cells := total_rows * total_columns
  if total_rows = 0 then
    { table_name := table_name
      error := some "Table is empty"
      total_rows := 0
      missing_values := 0
      duplicate_rows := 0
      null_values_percentage := 0
      completeness_percentage := 0
      uniqueness_percentage := 0
      columns := [] }
  else
    let total_missing_values := totalMissing data
    let table_completeness : ℚ :=
      (1 - ((total_missing_values : ℚ) / (total_cells : ℚ))) * 100
    let total_unique_values := totalUnique data
    let table_uniqueness : ℚ := ((total_unique_values : ℚ) / (total_cells : ℚ)) * 100
    let table_null_percentage : ℚ := ((total_missing_values : ℚ) / (total_cells : ℚ)) * 100
    { table_name := table_name
      error := none
      total_rows := total_rows
      missing_values := total_missing_values
      duplicate_rows := dupRows data
      null_values_percentage := table_null_percentage
      completeness_percentage := table_completeness
      uniqueness_percentage := table_uniqueness
      columns := (List.range total_columns).map (fun j =>
        (data.cols.getD j "",
          { missing_values := colMissing data j
            null_values_percentage := ((colMissing data j : ℚ) / (total_rows : ℚ)) * 100
            completeness_percentage :=
              (1 - ((colMissing data j : ℚ) / (total_rows : ℚ))) * 100
            uniqueness_percentage := ((nunique data j : ℚ) / (total_rows : ℚ)) * 100 })) }

/-- The default per-column entry used for positional `getD` access. -/
def defaultColumnEntry : String × ColumnMetrics :=
  ("", { missing_values := 0, null_values_percentage := 0,
         completeness_percentage := 0, uniqueness_percentage := 0 })

/-- The database catalog visible through `sqlite_master`: named tables and
their contents. -/
structure Catalog where
  tables : List (String × DataFrame)
deriving DecidableEq, Repr

/-- The set of table names returned by
`SELECT name FROM sqlite_master WHERE type='table'`. -/
def existingTables (cat : Catalog) : List String :=
  cat.tables.map Prod.fst

/-- `get_data_from_table(table_name)`: `SELECT * FROM table_name` read into a
DataFrame.  Only called on names known to exist, so the default is inert. -/
def get_data_from_table (cat : Catalog) (table_name : String) : DataFrame :=
  (((cat.tables.find? (fun p => p.1 = table_name)).map Prod.snd)).getD ⟨[], []⟩

/-- One element of the list returned by `get_data_quality`: either the
soft-error dict `{table_name, error: "Table not found", llm_analysis: None}`
or `{**metrics, llm_analysis}` for a table that was found and analyzed. -/
inductive QualityItem where
  | notFound (table_name : String)
  | analyzed (metrics : Metrics) (llm_analysis : String)
deriving DecidableEq, Repr

/-- The `table_name` field of a result item. -/
def QualityItem.tableName : QualityItem → String
  | .notFound n => n
  | .analyzed m _ => m.table_name

/-- The `llm_analysis` field of a result item (`none` models Python `None`). -/
def QualityItem.llmAnalysis : QualityItem → Option String
  | .notFound _ => none
  | .analyzed _ l => some l

/-- `get_data_quality(table_names)` from `modules/dataquality.py`, with the
external LLM modelled as an oracle `llm` from metrics to summary text.
The first component is the `results` list (one item per requested name, in
request order); the second records the metrics dictionaries passed to
`get_llm_analysis`, in call order, so that outbound-call behaviour is
observable. -/
def get_data_quality (llm : Metrics → String) (cat : Catalog)
    (table_names : List String) : List QualityItem × List Metrics :=
  (table_names.map (fun table =>
      if table ∈ existingTables cat then
        QualityItem.analyzed (compute_metrics (get_data_from_table cat table) table)
          (llm (compute_metrics (get_data_from_table cat table) table))
      else
        QualityItem.notFound table),
   table_names.filterMap (fun table =>
      if table ∈ existingTables cat then
        some (compute_metrics (get_data_from_table cat table) table)
      else
        none))

/-- The `POST /data-quality/` endpoint (`data_quality` in `main.py`).
`table_names` is the optional query string; Python's
`table_names.split(",") if table_names else None` maps both an absent and an
empty string to `None`, and `get_data_quality` then iterates over `None`,
which raises `TypeError` — modelled as `Except.error`. -/
def data_quality_endpoint (llm : Metrics → String) (cat : Catalog)
    (table_names : Option String) : Except String (List QualityItem) :=
  let table_names_list : Option (List String) :=
    match table_names with
    | none => none
    | some s => if s = "" then none else some (s.splitOn ",")
  match table_names_list with
  | none => Except.error "TypeError: NoneType object is not iterable"
  | some names => Except.ok (get_data_quality llm cat names).1

/-- A JSON-like response tree, used to compare the shapes the key-relation
routes return. -/
inductive Json where
  | str (s : String)
  | arr (elems : List Json)
  | obj (fields : List (String × Json))

/-- One foreign-key constraint as reported by the SQLAlchemy inspector. -/
structure ForeignKeyInfo where
  constrained_columns : List String
  referred_table : String
  referred_columns : List String
deriving DecidableEq, Repr

/-- Schema metadata of one table as read from the live catalog inspector. -/
structure TableSchemaInfo where
  name : String
  primary_keys : List String
  foreign_keys : List ForeignKeyInfo
deriving DecidableEq, Repr

/-- The per-foreign-key dict built inside `get_keys_relations`. -/
def fkRelationJson (fk : ForeignKeyInfo) : Json :=
  .obj [("column", .arr (fk.constrained_columns.map Json.str)),
        ("references_table", .str fk.referred_table),
        ("references_column", .arr (fk.referred_columns.map Json.str))]

/-- `get_keys_relations(db)` from `modules/Keys_Relation.py`: builds
`{"key_relationships": {table: {primary_keys, foreign_keys}}}` over every
table in the inspected schema. -/
def get_keys_relations (schema : List TableSchemaInfo) : Json :=
  .obj [("key_relationships", .obj (schema.map (fun t =>
    (t.name, Json.obj
      [("primary_keys", .arr (t.primary_keys.map Json.str)),
       ("foreign_keys", .arr (t.foreign_keys.map fkRelationJson))]))))]

/-- The `GET /keys_relation` route (`keys_relations` in `main.py`): wraps the
full return value of `get_keys_relations` under a `message` envelope. -/
def keys_relations_endpoint (schema : List TableSchemaInfo) : Json :=
  .obj [("message", .str "Welcome to the FastAPI Service"),
        ("key_relationships", get_keys_relations schema)]

/-- The `GET /get_keys_relations` route (`get_keys_relations_endpoint` in
`main.py`): returns `get_keys_relations` verbatim. -/
def get_keys_relations_endpoint (schema : List TableSchemaInfo) : Json :=
  get_keys_relations schema

/-- Python `str()` of a cell, as applied by pandas `astype(str)` after the
`NaN → None` replacement in `upload_csv`. -/
def pyStrOf : PyVal → String
  | .vint n => toString n
  | .vstr s => s
  | .vnone => "None"

/-- `astype(str)` on one cell. -/
def astypeStr (v : PyVal) : PyVal := .vstr (pyStrOf v)

/-- Whitespace characters removed by Python `str.strip()`. -/
def isWhitespaceChar (c : Char) : Bool :=
  c = ' ' || c = '\t' || c = '\n' || c = '\r'

/-- Strip leading and trailing whitespace from a character list. -/
def trimChars (l : List Char) : List Char :=
  ((l.dropWhile isWhitespaceChar).reverse.dropWhile isWhitespaceChar).reverse

/-- `df.columns.str.lower().str.strip()` on one column name. -/
def normalizeName (s : String) : String :=
  ⟨trimChars (s.data.map Char.toLower)⟩

/-- Substring test (`pat in s` in Python). -/
def strContainsSub (s pat : String) : Bool :=
  (List.range (s.toList.length + 1)).any
    (fun i => pat.toList.isPrefixOf (s.toList.drop i))

/-- The `id_columns` list of `upload_csv` in `database.py`. -/
def id_columns : List String :=
  ["customer_id", "product_id", "retailer_id", "order_id", "sales_id",
   "category_id", "position_id", "phone"]

/-- The datetime-column test of `upload_csv`:
`"date" in col or "created_at" in col`. -/
def isDatetimeColumn (name : String) : Bool :=
  strContainsSub name "date" || strContainsSub name "created_at"

/-- A column-oriented DataFrame as manipulated by `upload_csv`: each column
is a name together with its cell values. -/
structure NamedFrame where
  cols : List (String × List PyVal)
deriving DecidableEq, Repr

/-- The declared columns of the fixed SQLAlchemy models in `database.py`
(the `tables` dict of `upload_csv`). -/
def tableSchemas : List (String × List String) :=
  [("customer", ["customer_id", "name", "email", "phone", "address", "created_at"]),
   ("sales", ["sales_id", "customer_id", "product_id", "retailer_id",
              "quantity", "total_price", "sales_date"]),
   ("orders", ["order_id", "customer_id", "product_id", "retailer_id",
               "order_date", "status"]),
   ("product", ["product_id", "name", "category_id", "price", "stock_quantity"]),
   ("product_category", ["category_id", "category_name"]),
   ("retailer", ["retailer_id", "name", "location"]),
   ("self_position", ["position_id", "product_id", "shelf_location", "height"])]

/-- The column pipeline of `upload_csv`: normalise names, drop columns not in
the target schema, `astype(str)` the identifier/phone columns, then apply the
datetime coercion `toDT` (`pd.to_datetime(..., errors="coerce")` followed by
`to_pydatetime`-or-`None`, kept abstract) to date-like columns. -/
def uploadTransform (toDT : PyVal → PyVal) (table_columns : List String)
    (df : NamedFrame) : NamedFrame :=
  let renamed := df.cols.map (fun c => (normalizeName c.1, c.2))
  let kept := renamed.filter (fun c => c.1 ∈ table_columns)
  let idDone := kept.map (fun c =>
    if c.1 ∈ id_columns then (c.1, c.2.map astypeStr) else c)
  ⟨idDone.map (fun c =>
    if isDatetimeColumn c.1 then (c.1, c.2.map toDT) else c)⟩

/-- The row count of the uploaded frame (all pandas columns share a length;
taken as the longest column so the definition is total). -/
def nRows (df : NamedFrame) : Nat :=
  (df.cols.map (fun c => c.2.length)).foldr max 0

/-- `df.to_dict(orient="records")`: one field→value record per row. -/
def toRecords (df : NamedFrame) (n : Nat) : List (List (String × PyVal)) :=
  (List.range n).map (fun i => df.cols.map (fun c => (c.1, c.2.getD i PyVal.vnone)))

/-- `upload_csv(table_name, file)` from `database.py`, restricted to its
data transformation: unknown table names yield the `"Invalid table name"`
error payload; otherwise the records passed to `bulk_insert_mappings` are
returned. -/
def upload_csv (toDT : PyVal → PyVal) (table_name : String)
    (df : NamedFrame) : Except String (List (List (String × PyVal))) :=
  match tableSchemas.find? (fun p => p.1 = table_name) with
  | none => Except.error "Invalid table name"
  | some p => Except.ok (toRecords (uploadTransform toDT p.2 df) (nRows df))

/-- Concrete one-row one-column table used by witnesses. -/
def dfOne : DataFrame := ⟨["a"], [[PyVal.vstr "x"]]⟩

/-- Claim C1: for a non-empty table, the table-level uniqueness percentage is
the sum over columns of distinct-value counts, divided by the total cell
count (rows times columns), times 100, while each column's uniqueness
percentage is that column's distinct-value count divided by the row count,
times 100. -/
theorem c1_uniqueness_formulas (df : DataFrame) (name : String)
    (h : df.rows ≠ []) :
    ((compute_metrics df name).uniqueness_percentage =
      (((List.range df.cols.length).map (fun j => (nunique df j : ℚ))).sum /
        ((df.rows.length : ℚ) * (df.cols.length : ℚ))) * 100) ∧
    (∀ j, j < df.cols.length →
      ((compute_metrics df name).columns.getD j defaultColumnEntry).2.uniqueness_percentage
        = ((nunique df j : ℚ) / (df.rows.length : ℚ)) * 100) := by
  have hlen : df.rows.length ≠ 0 := fun h0 => h (List.length_eq_zero.mp h0)
  constructor
  · simp only [compute_metrics, if_neg hlen, totalUnique]
    rw [Nat.cast_list_sum, Nat.cast_mul, List.map_map]
    rfl
  · intro j hj
    simp only [compute_metrics, if_neg hlen]
    rw [List.getD_eq_getElem?_getD, List.getElem?_map, List.getElem?_range hj]
    rfl

/-- Witness for C1 at a concrete one-cell table. -/
theorem c1_uniqueness_formulas_witness :
    ((compute_metrics dfOne "t").uniqueness_percentage =
      (((List.range dfOne.cols.length).map (fun j => (nunique dfOne j : ℚ))).sum /
        ((dfOne.rows.length : ℚ) * (dfOne.cols.length : ℚ))) * 100) ∧
    (∀ j, j < dfOne.cols.length →
      ((compute_metrics dfOne "t").columns.getD j defaultColumnEntry).2.uniqueness_percentage
        = ((nunique dfOne j : ℚ) / (dfOne.rows.length : ℚ)) * 100) :=
  c1_uniqueness_formulas dfOne "t" (by decide)

/-- Claim C3: for a zero-row table, `compute_metrics` returns the explicit
all-zero record marked `"Table is empty"`; the division branch is not taken. -/
theorem c3_empty_table (df : DataFrame) (name : String) (h : df.rows = []) :
    compute_metrics df name =
      { table_name := name
        error := some "Table is empty"
        total_rows := 0
        missing_values := 0
        duplicate_rows := 0
        null_values_percentage := 0
        completeness_percentage := 0
        uniqueness_percentage := 0
        columns := [] } := by
  simp [compute_metrics, h]

/-- Witness for C3 at a concrete empty table. -/
theorem c3_empty_table_witness :
    compute_metrics ⟨["c"], []⟩ "t" =
      { table_name := "t"
        error := some "Table is empty"
        total_rows := 0
        missing_values := 0
        duplicate_rows := 0
        null_values_percentage := 0
        completeness_percentage := 0
        uniqueness_percentage := 0
        columns := [] } :=
  c3_empty_table ⟨["c"], []⟩ "t" rfl

/-- Claim C4: for every non-empty table the completeness and null percentages
are complementary: they sum to exactly 100 (arithmetic modelled over `ℚ`). -/
theorem c4_complementary (df : DataFrame) (name : String) (h : df.rows ≠ []) :
    (compute_metrics df name).completeness_percentage +
      (compute_metrics df name).null_values_percentage = 100 := by
  have hlen : df.rows.length ≠ 0 := fun h0 => h (List.length_eq_zero.mp h0)
  simp only [compute_metrics, if_neg hlen]
  ring

/-- Witness for C4 at a concrete one-cell table. -/
theorem c4_complementary_witness :
    (compute_metrics dfOne "t").completeness_percentage +
      (compute_metrics dfOne "t").null_values_percentage = 100 :=
  c4_complementary dfOne "t" (by decide)

/-- A concrete catalog with one non-empty table `"t"`, used by witnesses. -/
def catOne : Catalog := ⟨[("t", dfOne)]⟩

/-- A fixed LLM oracle used by witnesses and counterexamples. -/
def llmFixed : Metrics → String := fun _ => "SUMMARY"

/-- Both branches of `compute_metrics` put the requested name in the
`table_name` field. -/
lemma compute_metrics_table_name (df : DataFrame) (n : String) :
    (compute_metrics df n).table_name = n := by
  by_cases h : df.rows.length = 0 <;> simp [compute_metrics, h]

/-- Claim C10: `get_data_quality` returns exactly one item per requested
name, in request order, and each item's `table_name` field equals the
corresponding requested name. -/
theorem c10_one_item_per_name (llm : Metrics → String) (cat : Catalog)
    (names : List String) :
    (get_data_quality llm cat names).1.map QualityItem.tableName = names := by
  unfold get_data_quality
  rw [List.map_map]
  apply List.map_id''
  intro n
  by_cases hn : n ∈ existingTables cat
  · simp [Function.comp_apply, if_pos hn, QualityItem.tableName,
      compute_metrics_table_name]
  · simp [Function.comp_apply, if_neg hn, QualityItem.tableName]

/-- Claim C2: when the request mixes unknown and known names, the batch is
not aborted: the result has one item per name, each unknown name yielding
the `"Table not found"` soft-error item (with absent `llm_analysis`) and
each known name yielding the full metrics item. -/
theorem c2_partial_failure (llm : Metrics → String) (cat : Catalog)
    (names : List String)
    (hbad : ∃ n ∈ names, n ∉ existingTables cat)
    (hgood : ∃ n ∈ names, n ∈ existingTables cat) :
    ((get_data_quality llm cat names).1.length = names.length) ∧
    (∀ (i : Nat) (n : String), names[i]? = some n →
      (n ∉ existingTables cat →
        (get_data_quality llm cat names).1[i]? = some (QualityItem.notFound n)) ∧
      (n ∈ existingTables cat →
        (get_data_quality llm cat names).1[i]? = some (QualityItem.analyzed
          (compute_metrics (get_data_from_table cat n) n)
          (llm (compute_metrics (get_data_from_table cat n) n))))) := by
  refine ⟨by simp [get_data_quality], ?_⟩
  intro i n hi
  unfold get_data_quality
  rw [List.getElem?_map, hi]
  constructor
  · intro hn
    simp [if_neg hn]
  · intro hn
    simp [if_pos hn]

/-- Witness for C2: catalog `catOne` holds only `"t"`, and the request
`["nope", "t"]` yields a two-item sequence whose first item is the
soft error and whose second is the analyzed metrics item. -/
theorem c2_partial_failure_witness :
    ((get_data_quality llmFixed catOne ["nope", "t"]).1.length = 2) ∧
    ((get_data_quality llmFixed catOne ["nope", "t"]).1[0]? =
      some (QualityItem.notFound "nope")) ∧
    ((get_data_quality llmFixed catOne ["nope", "t"]).1[1]? =
      some (QualityItem.analyzed
        (compute_metrics (get_data_from_table catOne "t") "t")
        (llmFixed (compute_metrics (get_data_from_table catOne "t") "t")))) := by
  have h := c2_partial_failure llmFixed catOne ["nope", "t"]
    ⟨"nope", by decide, by decide⟩ ⟨"t", by decide, by decide⟩
  exact ⟨h.1, (h.2 0 "nope" rfl).1 (by decide), (h.2 1 "t" rfl).2 (by decide)⟩

/-- Filtering through an `if`-guarded `filterMap` is mapping over the
filtered list. -/
lemma filterMap_if_eq_map_filter {α β : Type} (p : α → Prop) [DecidablePred p]
    (g : α → β) (l : List α) :
    (l.filterMap (fun a => if p a then some (g a) else none)) =
      (l.filter (fun a => decide (p a))).map g := by
  induction l with
  | nil => rfl
  | cons a t ih => by_cases ha : p a <;> simp [ha, ih]

/-- A catalog holding a single zero-row table `"t"`. -/
def catEmptyTable : Catalog := ⟨[("t", ⟨["c"], []⟩)]⟩

/-- Counterexample to claim C5: for the catalog whose table `"t"` has zero
rows, the computed metrics record carries the `"Table is empty"` error
marker, yet the LLM oracle is still invoked on it (the calls list is
non-empty) and `llm_analysis` is set to its output, not absent. -/
theorem c5_error_skips_llm_cex :
    ((get_data_quality llmFixed catEmptyTable ["t"]).2.map Metrics.error
      = [some "Table is empty"]) ∧
    ((get_data_quality llmFixed catEmptyTable ["t"]).1.map QualityItem.llmAnalysis
      = [some "SUMMARY"]) := by decide

/-- Claim C5 as amended: the outbound LLM call is skipped exactly for
requested names absent from the catalog; for every found table the call is
made on its computed metrics — even when those metrics carry the
`"Table is empty"` error marker — and `llm_analysis` is set to the
call's output, being absent only for not-found names. -/
theorem c5_llm_called_for_found_tables (llm : Metrics → String) (cat : Catalog)
    (names : List String) :
    ((get_data_quality llm cat names).2 =
      (names.filter (fun n => decide (n ∈ existingTables cat))).map
        (fun n => compute_metrics (get_data_from_table cat n) n)) ∧
    ((get_data_quality llm cat names).1.map QualityItem.llmAnalysis =
      names.map (fun n =>
        if n ∈ existingTables cat then
          some (llm (compute_metrics (get_data_from_table cat n) n))
        else none)) := by
  constructor
  · unfold get_data_quality
    exact filterMap_if_eq_map_filter (fun n => n ∈ existingTables cat)
      (fun n => compute_metrics (get_data_from_table cat n) n) names
  · unfold get_data_quality
    rw [List.map_map]
    apply List.map_congr_left
    intro n _
    by_cases hn : n ∈ existingTables cat
    · simp [if_pos hn, QualityItem.llmAnalysis]
    · simp [if_neg hn, QualityItem.llmAnalysis]

/-- Counterexample to claim C6: with catalog `catOne` (one known table),
requesting the data-quality endpoint with an empty `table_names` string does
not analyze the catalog's tables — it fails with a `TypeError`, because
`None` is passed to `get_data_quality` and iterated. -/
theorem c6_empty_analyzes_all_cex :
    (data_quality_endpoint llmFixed catOne (some "") =
      Except.error "TypeError: NoneType object is not iterable") ∧
    (data_quality_endpoint llmFixed catOne none =
      Except.error "TypeError: NoneType object is not iterable") ∧
    (∀ items : List QualityItem,
      data_quality_endpoint llmFixed catOne (some "") ≠ Except.ok items) := by
  refine ⟨rfl, rfl, fun items h => ?_⟩
  exact Except.noConfusion h

/-- Claim C6 as amended: when the `table_names` input of `POST /data-quality/`
is empty or absent, the endpoint passes `None` to `get_data_quality`, whose
iteration over `None` raises `TypeError`; the request fails and no table is
analyzed. -/
theorem c6_empty_input_type_error (llm : Metrics → String) (cat : Catalog) :
    (data_quality_endpoint llm cat none =
      Except.error "TypeError: NoneType object is not iterable") ∧
    (data_quality_endpoint llm cat (some "") =
      Except.error "TypeError: NoneType object is not iterable") :=
  ⟨rfl, rfl⟩

/-- Counterexample to claim C7: already over the empty schema the two
key-relation routes answer differently — `/keys_relation` wraps the full
`get_keys_relations` payload (itself of shape `{key_relationships: …}`)
under a `message` envelope, so its response is not
`{key_relationships: KeyRelationReport}` and differs from the response of
`/get_keys_relations`. -/
theorem c7_routes_equal_cex :
    keys_relations_endpoint [] ≠ get_keys_relations_endpoint [] := by
  simp [keys_relations_endpoint, get_keys_relations_endpoint, get_keys_relations]

/-- Claim C7 as amended: for every schema, `/get_keys_relations` returns the
report envelope `{key_relationships: …}` produced by `get_keys_relations`,
while `/keys_relation` returns
`{message: "Welcome to the FastAPI Service", key_relationships: r}` where
`r` is the entire response of `/get_keys_relations` — the same report
content, doubly nested, so the two routes' responses differ in shape. -/
theorem c7_routes_relationship (schema : List TableSchemaInfo) :
    keys_relations_endpoint schema =
      Json.obj [("message", Json.str "Welcome to the FastAPI Service"),
                ("key_relationships", get_keys_relations_endpoint schema)] :=
  rfl

/-- Claim C8 as amended: a designated identifier-like or phone column that
receives a numeric value stores its decimal string form — the numeric value
`007` is the integer `7`, so `"7"` is stored: the string coercion happens
but leading zeros of the written numeral are not preserved. -/
theorem c8_numeric_id_to_string (toDT : PyVal → PyVal) (n : Int) :
    upload_csv toDT "customer" ⟨[("phone", [PyVal.vint n])]⟩ =
      Except.ok [[("phone", PyVal.vstr (toString n))]] := rfl

/-- Counterexample to claim C8: ingesting the numeric value `007` into the
`phone` column of `customer` stores the string `"7"`, which is not the
string `"007"` — leading zeros are lost before the string coercion. -/
theorem c8_leading_zeros_cex :
    (upload_csv (fun v => v) "customer" ⟨[("phone", [PyVal.vint 007])]⟩ =
      Except.ok [[("phone", PyVal.vstr "7")]]) ∧
    PyVal.vstr "7" ≠ PyVal.vstr "007" :=
  ⟨rfl, by decide⟩

/-- Mapping `Prod.fst` over the identifier- and datetime-coercion passes of
`uploadTransform` leaves the column names unchanged. -/
lemma map_fst_coercion_passes (toDT : PyVal → PyVal)
    (l : List (String × List PyVal)) :
    ((l.map (fun c => if c.1 ∈ id_columns then (c.1, c.2.map astypeStr) else c)).map
        (fun c => if isDatetimeColumn c.1 then (c.1, c.2.map toDT) else c)).map
      Prod.fst = l.map Prod.fst := by
  induction l with
  | nil => rfl
  | cons c t ih =>
    simp only [List.map_cons]
    rw [ih]
    congr 1
    by_cases h1 : c.1 ∈ id_columns <;> by_cases h2 : isDatetimeColumn c.1 <;>
      simp [h1, h2]

/-- Column names surviving the rename-then-filter passes of
`uploadTransform` are the normalized input names that lie in the schema. -/
lemma map_fst_filter_renamed (schema : List String)
    (l : List (String × List PyVal)) :
    (((l.map (fun c => (normalizeName c.1, c.2))).filter
        (fun c => decide (c.1 ∈ schema))).map Prod.fst) =
      (l.map (fun c => normalizeName c.1)).filter (fun n => decide (n ∈ schema)) := by
  induction l with
  | nil => rfl
  | cons c t ih =>
    by_cases hc : normalizeName c.1 ∈ schema <;> simp [List.filter_cons, hc, ih]

/-- Claim C9: field names are lower-cased and trimmed before matching the
target schema, every field whose normalized name is outside the schema is
dropped, and every schema-matching field that is not a designated
identifier/phone or date-like column keeps its values unchanged. -/
theorem c9_normalize_and_drop (toDT : PyVal → PyVal) (schema : List String)
    (df : NamedFrame) :
    ((uploadTransform toDT schema df).cols.map Prod.fst =
      (df.cols.map (fun c => normalizeName c.1)).filter
        (fun n => decide (n ∈ schema))) ∧
    (∀ name vals, (name, vals) ∈ df.cols → normalizeName name ∈ schema →
      normalizeName name ∉ id_columns →
      isDatetimeColumn (normalizeName name) = false →
      (normalizeName name, vals) ∈ (uploadTransform toDT schema df).cols) := by
  constructor
  · show (((((df.cols.map (fun c => (normalizeName c.1, c.2))).filter
        (fun c => decide (c.1 ∈ schema))).map
          (fun c => if c.1 ∈ id_columns then (c.1, c.2.map astypeStr) else c)).map
        (fun c => if isDatetimeColumn c.1 then (c.1, c.2.map toDT) else c)).map
      Prod.fst) = _
    rw [map_fst_coercion_passes, map_fst_filter_renamed]
  · intro name vals hmem hin hid hdt
    have h1 : (normalizeName name, vals) ∈
        df.cols.map (fun c => (normalizeName c.1, c.2)) :=
      List.mem_map.mpr ⟨(name, vals), hmem, rfl⟩
    have h2 : (normalizeName name, vals) ∈
        (df.cols.map (fun c => (normalizeName c.1, c.2))).filter
          (fun c => decide (c.1 ∈ schema)) :=
      List.mem_filter.mpr ⟨h1, by simpa using hin⟩
    have h3 : (normalizeName name, vals) ∈
        ((df.cols.map (fun c => (normalizeName c.1, c.2))).filter
          (fun c => decide (c.1 ∈ schema))).map
            (fun c => if c.1 ∈ id_columns then (c.1, c.2.map astypeStr) else c) :=
      List.mem_map.mpr ⟨(normalizeName name, vals), h2, by simp [hid]⟩
    exact List.mem_map.mpr ⟨(normalizeName name, vals), h3, by simp [hdt]⟩

/-- The {a,b,c} ingestion example from the spec. -/
def dfExample : NamedFrame :=
  ⟨[("a", [PyVal.vint 1]), ("b", [PyVal.vint 2]), ("c", [PyVal.vint 3])]⟩

/-- Witness for C9 on the spec's example: against schema `{a, b}` the field
`c` is dropped and the stored record is `{a: 1, b: 2}`. -/
theorem c9_normalize_and_drop_witness :
    (("a", [PyVal.vint 1]) ∈ (uploadTransform (fun v => v) ["a", "b"] dfExample).cols) ∧
    (toRecords (uploadTransform (fun v => v) ["a", "b"] dfExample) (nRows dfExample) =
      [[("a", PyVal.vint 1), ("b", PyVal.vint 2)]]) := by
  have h := c9_normalize_and_drop (fun v => v) ["a", "b"] dfExample
  exact ⟨h.2 "a" [PyVal.vint 1] (by decide) (by decide) (by decide) (by decide),
    by decide⟩
